import Mathlib

/-!
Verification development for the ATRescueBoard high-voltage fuse programmer
(src/ATRescue/main.cpp).  The sketch drives two AVR programming protocols:
parallel high-voltage programming (HVPP) and high-voltage serial programming
(HVSP).  We embed the protocol-relevant functions shallowly: every GPIO
operation, bus operation and delay becomes an event in a trace, functions
whose behaviour depends on input lines are parameterised by a stream of
levels for those lines (indexed by the number of reads performed so far),
and unbounded busy-wait loops are given a fuel parameter, returning `none`
when the fuel is exhausted before the awaited level is seen.
-/

namespace ATRescue

/-! ## Pin assignments (main.cpp lines 132-148).
On an Arduino Uno the analog pins A0..A5 are digital numbers 14..19. -/

abbrev VCC : Nat := 12
abbrev RDY : Nat := 13
abbrev OE : Nat := 11
abbrev WR : Nat := 10
abbrev BS1 : Nat := 16
abbrev XA0 : Nat := 8
abbrev XA1 : Nat := 18
abbrev RST : Nat := 14
abbrev XTAL1 : Nat := 17
abbrev BUTTON : Nat := 15

/-- HVSP-mode alias: SCI is the BS1 pin. -/
abbrev SCI : Nat := BS1
/-- HVSP-mode alias: SDO is the RDY pin. -/
abbrev SDO : Nat := RDY
/-- HVSP-mode alias: SII is the XA0 pin. -/
abbrev SII : Nat := XA0
/-- HVSP-mode alias: SDI is the XA1 pin. -/
abbrev SDI : Nat := XA1

/-- Programming mode, `enum modelist { ATMEGA, TINY2313, HVSP }`. -/
inductive Mode where
  | ATMEGA
  | TINY2313
  | HVSP
deriving DecidableEq, Repr

/-- Fuse selector, `enum fusesel { LFUSE_SEL, HFUSE_SEL, EFUSE_SEL }`. -/
inductive Fusesel where
  | LFUSE_SEL
  | HFUSE_SEL
  | EFUSE_SEL
deriving DecidableEq, Repr

/-- Value of the global variable `BS2` after `setup()`: it starts as pin 9
and is reassigned to the XA1 pin when the ATtiny2313 mode is selected
(main.cpp lines 205 and 595). -/
def bs2pin : Mode → Nat
  | Mode.TINY2313 => XA1
  | _ => 9

/-- One observable hardware action of the sketch: a GPIO level write, a GPIO
read (the value read is supplied by a stream parameter of the function that
performs it), a pin-direction change (`out = true` means OUTPUT), a delay,
a write to the 8-bit data bus registers PORTD/DDRD, or a read of PIND. -/
inductive Ev where
  | digitalWrite (pin : Nat) (level : Bool)
  | digitalRead (pin : Nat)
  | pinMode (pin : Nat) (out : Bool)
  | delayMs (n : Nat)
  | delayUs (n : Nat)
  | portD (v : Nat)
  | ddrD (v : Nat)
  | readPIND
deriving DecidableEq, Repr

/-! ## Timing / latching primitives -/

/-- Model of `sclk()` (main.cpp lines 208-216): one serial clock pulse on SCI. -/
def sclk : List Ev :=
  [Ev.delayMs 1, Ev.digitalWrite SCI true, Ev.delayMs 1, Ev.digitalWrite SCI false]

/-- Model of `strobe_xtal()` (main.cpp lines 218-224): pulse XTAL1 to latch data. -/
def strobe_xtal : List Ev :=
  [Ev.delayMs 1, Ev.digitalWrite XTAL1 true, Ev.delayMs 1, Ev.digitalWrite XTAL1 false]

/-- Model of `hex2dec` (main.cpp lines 226-234): '0'-'9' map to 0-9, 'A'-'F' map to
10-15, and any other byte is returned unchanged. -/
def hex2dec (c : Nat) : Nat :=
  if 48 ≤ c ∧ c ≤ 57 then c - 48
  else if 65 ≤ c ∧ c ≤ 70 then c - 65 + 10
  else c

/-! ## HVPP engine -/

/-- The part of `send_cmd` (main.cpp lines 236-252) that precedes the
`strobe_xtal()` latch: control lines for command mode, the guarded BS2-low
write (skipped in TINY2313 mode), and the command byte on the data bus. -/
def sendCmdPre (m : Mode) (bs2 command : Nat) : List Ev :=
  [Ev.digitalWrite XA1 true, Ev.digitalWrite XA0 false, Ev.digitalWrite BS1 false]
  ++ (if m ≠ Mode.TINY2313 then [Ev.digitalWrite bs2 false] else [])
  ++ [Ev.portD command, Ev.ddrD 255]

/-- Model of `send_cmd` (main.cpp lines 236-262), MEGA = 0 branch. -/
def send_cmd (m : Mode) (bs2 command : Nat) : List Ev :=
  sendCmdPre m bs2 command ++ strobe_xtal ++ [Ev.portD 0, Ev.ddrD 0]

/-- The `switch (select)` in `fuse_burn` (main.cpp lines 297-310): levels
driven on BS1 and BS2 to pick the fuse location to program. -/
def burnSelectWrites (bs2 : Nat) : Fusesel → List Ev
  | Fusesel.HFUSE_SEL => [Ev.digitalWrite BS1 true, Ev.digitalWrite bs2 false]
  | Fusesel.LFUSE_SEL => [Ev.digitalWrite BS1 false, Ev.digitalWrite bs2 false]
  | Fusesel.EFUSE_SEL => [Ev.digitalWrite BS1 false, Ev.digitalWrite bs2 true]

/-- The `switch (select)` in `fuse_read` (main.cpp lines 339-355): levels
driven on BS2 and BS1 to pick the fuse location to read. -/
def readSelectWrites (bs2 : Nat) : Fusesel → List Ev
  | Fusesel.LFUSE_SEL => [Ev.digitalWrite bs2 false, Ev.digitalWrite BS1 false]
  | Fusesel.HFUSE_SEL => [Ev.digitalWrite bs2 true, Ev.digitalWrite BS1 true]
  | Fusesel.EFUSE_SEL => [Ev.digitalWrite bs2 true, Ev.digitalWrite BS1 false]

/-- Busy-wait loop `while(digitalRead(pin) == LOW);` polling a line until it
reads High.  `s i` is the level seen by the i-th poll; the loop is given
`fuel` polls, returning the list of read events it performed (ending with
the first poll that saw High), or `none` if the fuel ran out first. -/
def pollTrace (pin : Nat) (s : Nat → Bool) : Nat → Nat → Option (List Ev)
  | _, 0 => none
  | i, fuel + 1 =>
    if s i then some [Ev.digitalRead pin]
    else
      match pollTrace pin s (i + 1) fuel with
      | none => none
      | some t => some (Ev.digitalRead pin :: t)

/-- Model of `fuse_burn` (main.cpp lines 264-323), MEGA = 0 branch.  `rdy i` is the
level of the RDY line at the i-th poll of the terminating busy-wait. -/
def fuse_burn (m : Mode) (bs2 fuse : Nat) (select : Fusesel) (rdy : Nat → Bool)
    (fuel : Nat) : Option (List Ev) :=
  match pollTrace RDY rdy 0 fuel with
  | none => none
  | some polls =>
    some (send_cmd m bs2 0x40
      ++ [Ev.digitalWrite XA1 false, Ev.digitalWrite XA0 true, Ev.digitalWrite BS1 false]
      ++ (if m ≠ Mode.TINY2313 then [Ev.digitalWrite bs2 false] else [])
      ++ [Ev.delayMs 1, Ev.portD fuse, Ev.ddrD 255]
      ++ strobe_xtal
      ++ [Ev.portD 0, Ev.ddrD 0]
      ++ burnSelectWrites bs2 select
      ++ [Ev.delayMs 1, Ev.digitalWrite WR false, Ev.delayMs 1, Ev.digitalWrite WR true]
      ++ polls
      ++ [Ev.digitalWrite BS1 false, Ev.digitalWrite bs2 false])

/-- Model of `fuse_read` (main.cpp lines 325-369), MEGA = 0 branch.  `pind` is the
byte present on the data bus when PIND is sampled; the C `byte` type
truncates it to 8 bits. -/
def fuse_read (m : Mode) (bs2 : Nat) (select : Fusesel) (pind : Nat) :
    Nat × List Ev :=
  (pind % 256,
    send_cmd m bs2 0x04
    ++ [Ev.portD 0, Ev.ddrD 0]
    ++ readSelectWrites bs2 select
    ++ [Ev.digitalWrite OE false, Ev.delayMs 1, Ev.readPIND, Ev.digitalWrite OE true])

/-- The last level written to `pin` in a trace, if any. -/
def lastWrite (t : List Ev) (pin : Nat) : Option Bool :=
  t.foldl (fun acc e =>
    match e with
    | Ev.digitalWrite q v => if q = pin then some v else acc
    | _ => acc) none

/-- The (BS1, BS2) select-line pattern driven by a list of writes. -/
def selPattern (t : List Ev) (bs2 : Nat) : Option Bool × Option Bool :=
  (lastWrite t BS1, lastWrite t bs2)

/-- Pin-level state after replaying the writes of a trace over an initial
level assignment. -/
def applyWrites (s : Nat → Bool) (t : List Ev) : Nat → Bool :=
  t.foldl (fun st e =>
    match e with
    | Ev.digitalWrite p v => fun q => if q = p then v else st q
    | _ => st) s

/-! ## HVSP serial instruction constants (main.cpp lines 154-189).
`B01001100` etc. are binary literals in the source. -/

abbrev HVSP_READ_LFUSE_DATA : Nat := 0x04
abbrev HVSP_READ_LFUSE_INSTR1 : Nat := 0x4C
abbrev HVSP_READ_LFUSE_INSTR2 : Nat := 0x68
abbrev HVSP_READ_LFUSE_INSTR3 : Nat := 0x6C

abbrev HVSP_WRITE_LFUSE_DATA : Nat := 0x40
abbrev HVSP_WRITE_LFUSE_INSTR1 : Nat := 0x4C
abbrev HVSP_WRITE_LFUSE_INSTR2 : Nat := 0x2C
abbrev HVSP_WRITE_LFUSE_INSTR3 : Nat := 0x64
abbrev HVSP_WRITE_LFUSE_INSTR4 : Nat := 0x6C

abbrev HVSP_READ_HFUSE_DATA : Nat := 0x04
abbrev HVSP_READ_HFUSE_INSTR1 : Nat := 0x4C
abbrev HVSP_READ_HFUSE_INSTR2 : Nat := 0x7A
abbrev HVSP_READ_HFUSE_INSTR3 : Nat := 0x7E

abbrev HVSP_WRITE_HFUSE_DATA : Nat := 0x40
abbrev HVSP_WRITE_HFUSE_INSTR1 : Nat := 0x4C
abbrev HVSP_WRITE_HFUSE_INSTR2 : Nat := 0x2C
abbrev HVSP_WRITE_HFUSE_INSTR3 : Nat := 0x74
abbrev HVSP_WRITE_HFUSE_INSTR4 : Nat := 0x7C

abbrev HVSP_READ_EFUSE_DATA : Nat := 0x04
abbrev HVSP_READ_EFUSE_INSTR1 : Nat := 0x4C
abbrev HVSP_READ_EFUSE_INSTR2 : Nat := 0x6A
abbrev HVSP_READ_EFUSE_INSTR3 : Nat := 0x6E

abbrev HVSP_WRITE_EFUSE_DATA : Nat := 0x40
abbrev HVSP_WRITE_EFUSE_INSTR1 : Nat := 0x4C
abbrev HVSP_WRITE_EFUSE_INSTR2 : Nat := 0x2C
abbrev HVSP_WRITE_EFUSE_INSTR3 : Nat := 0x66
abbrev HVSP_WRITE_EFUSE_INSTR4 : Nat := 0x6E

/-! ## HVSP engine -/

/-- One iteration of the bit loop in `HVSP_read`/`HVSP_write`
(main.cpp lines 417-427 and 458-469): drive SDI and SII to bit `7 - i`
of the data and instruction bytes (the source shifts the byte left by `i`
and tests 0x80) and pulse the serial clock. -/
def hvspDataBit (d ins i : Nat) : List Ev :=
  [Ev.digitalWrite SDI (Nat.testBit d (7 - i)), Ev.digitalWrite SII (Nat.testBit ins (7 - i))]
  ++ sclk

/-- Model of `HVSP_write` (main.cpp lines 447-478).  The C `byte` parameters truncate
the arguments to 8 bits. -/
def HVSP_write (data instr : Nat) : List Ev :=
  ([Ev.digitalWrite SCI false, Ev.digitalWrite SDI false, Ev.digitalWrite SII false] ++ sclk)
  ++ (List.range 8).flatMap (fun i => hvspDataBit (data % 256) (instr % 256) i)
  ++ (List.range 2).flatMap (fun _ =>
      [Ev.digitalWrite SDI false, Ev.digitalWrite SII false] ++ sclk)

/-- Model of `HVSP_read` (main.cpp lines 395-445).  `sdo k` is the level of the SDO
line at the k-th `digitalRead(SDO)` performed by this call.  Returns the
assembled response byte together with the event trace. -/
def HVSP_read (data instr : Nat) (sdo : Nat → Bool) : Nat × List Ev :=
  ((List.range 8).foldl
      (fun r i => if i < 7 then (if sdo (i + 1) then r ||| (0x40 >>> i) else r) else r)
      (if sdo 0 then 0x80 else 0x00),
    ([Ev.digitalWrite SCI false, Ev.digitalWrite SDI false, Ev.digitalWrite SII false]
      ++ sclk ++ [Ev.digitalRead SDO])
    ++ (List.range 8).flatMap (fun i =>
        hvspDataBit (data % 256) (instr % 256) i
        ++ (if i < 7 then [Ev.digitalRead SDO] else []))
    ++ (List.range 2).flatMap (fun _ =>
        [Ev.digitalWrite SDI false, Ev.digitalWrite SII false] ++ sclk))

/-- HVSP write-fuse data byte for the first frame, per selector. -/
def hvspWriteData : Fusesel → Nat
  | Fusesel.LFUSE_SEL => HVSP_WRITE_LFUSE_DATA
  | Fusesel.HFUSE_SEL => HVSP_WRITE_HFUSE_DATA
  | Fusesel.EFUSE_SEL => HVSP_WRITE_EFUSE_DATA

/-- HVSP write-fuse instruction byte of frame 1, per selector. -/
def hvspWriteInstr1 : Fusesel → Nat
  | Fusesel.LFUSE_SEL => HVSP_WRITE_LFUSE_INSTR1
  | Fusesel.HFUSE_SEL => HVSP_WRITE_HFUSE_INSTR1
  | Fusesel.EFUSE_SEL => HVSP_WRITE_EFUSE_INSTR1

/-- HVSP write-fuse instruction byte of frame 2 (the frame carrying the fuse
value), per selector. -/
def hvspWriteInstr2 : Fusesel → Nat
  | Fusesel.LFUSE_SEL => HVSP_WRITE_LFUSE_INSTR2
  | Fusesel.HFUSE_SEL => HVSP_WRITE_HFUSE_INSTR2
  | Fusesel.EFUSE_SEL => HVSP_WRITE_EFUSE_INSTR2

/-- HVSP write-fuse instruction byte of frame 3, per selector. -/
def hvspWriteInstr3 : Fusesel → Nat
  | Fusesel.LFUSE_SEL => HVSP_WRITE_LFUSE_INSTR3
  | Fusesel.HFUSE_SEL => HVSP_WRITE_HFUSE_INSTR3
  | Fusesel.EFUSE_SEL => HVSP_WRITE_EFUSE_INSTR3

/-- HVSP write-fuse instruction byte of frame 4, per selector. -/
def hvspWriteInstr4 : Fusesel → Nat
  | Fusesel.LFUSE_SEL => HVSP_WRITE_LFUSE_INSTR4
  | Fusesel.HFUSE_SEL => HVSP_WRITE_HFUSE_INSTR4
  | Fusesel.EFUSE_SEL => HVSP_WRITE_EFUSE_INSTR4

/-- One HVSP fuse write as performed by `loop()` (main.cpp lines 746-764
for the three selectors): four `HVSP_write` frames followed by the
busy-wait `while(digitalRead(SDO) == LOW);`.  `sdo i` is the level of SDO
at the i-th poll of that busy-wait. -/
def hvspBurnFuse (value : Nat) (sel : Fusesel) (sdo : Nat → Bool) (fuel : Nat) :
    Option (List Ev) :=
  match pollTrace SDO sdo 0 fuel with
  | none => none
  | some polls =>
    some (HVSP_write (hvspWriteData sel) (hvspWriteInstr1 sel)
      ++ HVSP_write value (hvspWriteInstr2 sel)
      ++ HVSP_write 0 (hvspWriteInstr3 sel)
      ++ HVSP_write 0 (hvspWriteInstr4 sel)
      ++ polls)

/-- Number of `digitalRead pin` events in a trace. -/
def countReads (t : List Ev) (pin : Nat) : Nat :=
  (t.filter (fun e =>
    match e with
    | Ev.digitalRead p => p == pin
    | _ => false)).length

/-- Number of serial clock pulses (rising edges driven on SCI) in a trace. -/
def clockPulses (t : List Ev) : Nat :=
  (t.filter (fun e =>
    match e with
    | Ev.digitalWrite p v => p == SCI && v
    | _ => false)).length

/-- Clock pulses (as `true`) and SDO samples (as `false`) of a trace, in
order of occurrence. -/
def pulsesAndSamples (t : List Ev) : List Bool :=
  t.filterMap (fun e =>
    match e with
    | Ev.digitalWrite p v => if p == SCI && v then some true else none
    | Ev.digitalRead p => if p == SDO then some false else none
    | _ => none)

/-! ## Session controller: the pieces of `loop()` the claims are about -/

/-- The button-press wait with debounce in `loop()` (main.cpp lines 626-631):

    while(1) {
      while (digitalRead(BUTTON) == HIGH);
      delay(100);
      if (digitalRead(BUTTON) == LOW) break;
    }

`btn k` is the level of the BUTTON line at the k-th `digitalRead(BUTTON)`
(High = released, Low = pressed, because of the pull-up).  Given `fuel`
iterations, returns the index of the confirming read that broke the loop
together with the trace of reads and debounce delays, or `none` if the fuel
ran out. -/
def buttonWait (btn : Nat → Bool) : Nat → Nat → Option (Nat × List Ev)
  | _, 0 => none
  | i, fuel + 1 =>
    if btn i then
      (buttonWait btn (i + 1) fuel).map (fun r => (r.1, Ev.digitalRead BUTTON :: r.2))
    else if btn (i + 1) then
      (buttonWait btn (i + 2) fuel).map (fun r =>
        (r.1, Ev.digitalRead BUTTON :: Ev.delayMs 100 :: Ev.digitalRead BUTTON :: r.2))
    else
      some (i + 1, [Ev.digitalRead BUTTON, Ev.delayMs 100, Ev.digitalRead BUTTON])

/-- The enter-programming-mode sequence of `loop()` (main.cpp lines
647-668): the HVSP-only pin preparation (`if(mode == HVSP)` block that
drives SDI/SII low and drives SDO low as an output), then VCC on, an 80 us
wait, the 12 V reset enable (RST driven Low — the converter enable is
inverting), the HVSP-only 1 us wait and release of SDO to input, a 10 us
wait, and the release of OE and WR to High. -/
def enterProgSeq (m : Mode) : List Ev :=
  (if m = Mode.HVSP then
    [Ev.digitalWrite SDI false, Ev.digitalWrite SII false,
     Ev.pinMode SDO true, Ev.digitalWrite SDO false]
   else [])
  ++ [Ev.digitalWrite VCC true, Ev.delayUs 80, Ev.digitalWrite RST false]
  ++ (if m = Mode.HVSP then [Ev.delayUs 1, Ev.pinMode SDO false] else [])
  ++ [Ev.delayUs 10, Ev.digitalWrite OE true, Ev.digitalWrite WR true, Ev.delayMs 1]

/-- One fuse-write invocation of the burning phase, abstracted to the call
the session controller makes: an `HVSP_write` frame with its data and
instruction bytes, the HVSP ready busy-wait, or an HVPP `fuse_burn`. -/
inductive Call where
  | hvspWriteCall (data instr : Nat)
  | waitSdoHigh
  | fuseBurnCall (fuse : Nat) (sel : Fusesel)
deriving DecidableEq, Repr

/-- The burning phase of `loop()` (main.cpp lines 745-792): in HVSP mode
four write frames plus a busy-wait per fuse, LFUSE group first, then HFUSE,
then (when BURN_EFUSE is enabled) EFUSE; in the parallel modes `fuse_burn`
for HFUSE, then LFUSE, then (when enabled) EFUSE. -/
def burningPhase (m : Mode) (burnEfuse : Bool) (lf hf ef : Nat) : List Call :=
  if m = Mode.HVSP then
    [Call.hvspWriteCall HVSP_WRITE_LFUSE_DATA HVSP_WRITE_LFUSE_INSTR1,
     Call.hvspWriteCall lf HVSP_WRITE_LFUSE_INSTR2,
     Call.hvspWriteCall 0 HVSP_WRITE_LFUSE_INSTR3,
     Call.hvspWriteCall 0 HVSP_WRITE_LFUSE_INSTR4,
     Call.waitSdoHigh,
     Call.hvspWriteCall HVSP_WRITE_HFUSE_DATA HVSP_WRITE_HFUSE_INSTR1,
     Call.hvspWriteCall hf HVSP_WRITE_HFUSE_INSTR2,
     Call.hvspWriteCall 0 HVSP_WRITE_HFUSE_INSTR3,
     Call.hvspWriteCall 0 HVSP_WRITE_HFUSE_INSTR4,
     Call.waitSdoHigh]
    ++ (if burnEfuse then
        [Call.hvspWriteCall HVSP_WRITE_EFUSE_DATA HVSP_WRITE_EFUSE_INSTR1,
         Call.hvspWriteCall ef HVSP_WRITE_EFUSE_INSTR2,
         Call.hvspWriteCall 0 HVSP_WRITE_EFUSE_INSTR3,
         Call.hvspWriteCall 0 HVSP_WRITE_EFUSE_INSTR4,
         Call.waitSdoHigh]
      else [])
  else
    [Call.fuseBurnCall hf Fusesel.HFUSE_SEL, Call.fuseBurnCall lf Fusesel.LFUSE_SEL]
    ++ (if burnEfuse then [Call.fuseBurnCall ef Fusesel.EFUSE_SEL] else [])

/-- Which fuse a frame-3 instruction byte of an HVSP write sequence
programs.  The three frame-3 constants are pairwise distinct and differ
from every other instruction byte used during burning. -/
def instr3Fuse (i : Nat) : Option Fusesel :=
  if i = HVSP_WRITE_LFUSE_INSTR3 then some Fusesel.LFUSE_SEL
  else if i = HVSP_WRITE_HFUSE_INSTR3 then some Fusesel.HFUSE_SEL
  else if i = HVSP_WRITE_EFUSE_INSTR3 then some Fusesel.EFUSE_SEL
  else none

/-- The selectors of the fuse-write operations of a burning phase, in
invocation order: an HVPP `fuse_burn` call counts directly, an HVSP write
group is counted at its frame-3 instruction. -/
def writeFuseOrder (calls : List Call) : List Fusesel :=
  calls.filterMap (fun c =>
    match c with
    | Call.fuseBurnCall _ s => some s
    | Call.hvspWriteCall _ i => instr3Fuse i
    | _ => none)

/-! ## Operator console: hex parsing and reports -/

/-- The synchronisation scan of `fuse_ask` (main.cpp lines 376-379):
consume input bytes until an 'x' (character code 120) has been consumed,
returning the remaining stream. -/
def dropThroughX : List Nat → Option (List Nat)
  | [] => none
  | c :: rest => if c = 120 then some rest else dropThroughX rest

/-- Model of `fuse_ask` (main.cpp lines 371-393) on an input byte stream: discard
everything up to and including the first 'x', then read two characters and
assemble `hex2dec(serbuffer[1]) + hex2dec(serbuffer[0]) * 16`, truncated to
the C `byte` type.  Returns the parsed byte and the unconsumed stream, or
`none` if the stream runs dry. -/
def fuse_ask (input : List Nat) : Option (Nat × List Nat) :=
  match dropThroughX input with
  | none => none
  | some rest =>
    match rest with
    | c1 :: c2 :: rest2 => some ((hex2dec c2 + hex2dec c1 * 16) % 256, rest2)
    | _ => none

/-- One uppercase hexadecimal digit, as produced by the Arduino core's
`Print::printNumber`. -/
def hexDigit (n : Nat) : Char :=
  if n < 10 then Char.ofNat (48 + n) else Char.ofNat (55 + n)

/-- Fuel-driven most-significant-first hex digit expansion. -/
def hexDigitsAux : Nat → Nat → List Char
  | 0, _ => []
  | _, 0 => []
  | fuel + 1, n + 1 => hexDigitsAux fuel ((n + 1) / 16) ++ [hexDigit ((n + 1) % 16)]

/-- Modelled from the spec: the operator console prints numbers in
hexadecimal via the Arduino core's `Serial.println(value, HEX)`
(`Print::printNumber`), which is not part of this repository.  It emits the
value's hex digits in uppercase with no zero-padding; the value 0 prints as
"0". -/
def printHex (n : Nat) : String :=
  if n = 0 then "0" else String.mk (hexDigitsAux n n)

/-- One chunk of serial console output: a printed string, or the line
terminator emitted by `Serial.println` / an explicit `Serial.print("\n")`. -/
inductive OutEv where
  | str (s : String)
  | newline
deriving DecidableEq, Repr

/-- Assemble console output chunks into lines.  `cur` is the text of the
line currently being accumulated; the final (unterminated) line is kept. -/
def linesOf : List OutEv → String → List String
  | [], cur => [cur]
  | OutEv.str s :: t, cur => linesOf t (cur ++ s)
  | OutEv.newline :: t, cur => cur :: linesOf t ""

/-- The report printed after the initial fuse read (main.cpp lines
700-711), with the fuse values read back and the BURN_EFUSE configuration
flag. -/
def readReportOut (lf hf : Nat) (burnEfuse : Bool) (ef : Nat) : List OutEv :=
  [OutEv.newline,
   OutEv.str "Existing fuse values:", OutEv.newline,
   OutEv.str "LFUSE: ", OutEv.str (printHex lf), OutEv.newline,
   OutEv.str "HFUSE: ", OutEv.str (printHex hf), OutEv.newline]
  ++ (if burnEfuse then
      [OutEv.str "EFUSE: ", OutEv.str (printHex ef), OutEv.newline]
    else [])
  ++ [OutEv.newline]

/-- The report printed after the verification read (main.cpp lines
806-819). -/
def verifyReportOut (lf hf : Nat) (burnEfuse : Bool) (ef : Nat) : List OutEv :=
  [OutEv.newline,
   OutEv.str "Read LFUSE: ", OutEv.str (printHex lf), OutEv.newline,
   OutEv.str "Read HFUSE: ", OutEv.str (printHex hf), OutEv.newline]
  ++ (if burnEfuse then
      [OutEv.str "Read EFUSE: ", OutEv.str (printHex ef), OutEv.newline]
    else [])
  ++ [OutEv.str "Burn complete.", OutEv.newline,
      OutEv.newline,
      OutEv.str "It is now safe to remove the target AVR.", OutEv.newline,
      OutEv.newline]

/-- The echo `Serial.println(fuse, HEX)` of `fuse_ask` (main.cpp line 389)
applied to the byte it parsed from the input stream. -/
def fuseAskEcho (input : List Nat) : Option String :=
  (fuse_ask input).map (fun p => printHex p.1)


/-! ## General lemmas about the embedding -/

theorem str_empty_append (s : String) : "" ++ s = s := rfl

theorem pollTrace_none (pin : Nat) (s : Nat → Bool) (h : ∀ i, s i = false) :
    ∀ fuel start, pollTrace pin s start fuel = none := by
  intro fuel
  induction fuel with
  | zero => intro start; rfl
  | succ k ih => intro start; simp [pollTrace, h start, ih (start + 1)]

theorem pollTrace_first (pin : Nat) (s : Nat → Bool) :
    ∀ fuel start n, start ≤ n → s n = true → (∀ m, start ≤ m → m < n → s m = false) →
      n < start + fuel →
      pollTrace pin s start fuel =
        some (List.replicate (n + 1 - start) (Ev.digitalRead pin)) := by
  intro fuel
  induction fuel with
  | zero => intro start n h1 _ _ h4; omega
  | succ k ih =>
    intro start n h1 h2 h3 h4
    by_cases hs : start = n
    · subst hs
      simp [pollTrace, h2]
    · have hlt : start < n := lt_of_le_of_ne h1 hs
      have hfalse : s start = false := h3 start le_rfl hlt
      have hrec := ih (start + 1) n (by omega) h2 (fun m hm1 hm2 => h3 m (by omega) hm2) (by omega)
      have hrepl : n + 1 - start = (n + 1 - (start + 1)) + 1 := by omega
      simp [pollTrace, hfalse, hrec, hrepl, List.replicate_succ]

theorem countReads_append (a b : List Ev) (p : Nat) :
    countReads (a ++ b) p = countReads a p + countReads b p := by
  simp [countReads, List.filter_append]

theorem countReads_replicate (k p : Nat) :
    countReads (List.replicate k (Ev.digitalRead p)) p = k := by
  induction k with
  | zero => rfl
  | succ n ih => simp [countReads, List.replicate_succ] at ih ⊢

theorem countReads_nil (p : Nat) : countReads [] p = 0 := rfl

theorem countReads_cons_write (q : Nat) (v : Bool) (t : List Ev) (p : Nat) :
    countReads (Ev.digitalWrite q v :: t) p = countReads t p := rfl

theorem countReads_cons_delayMs (n : Nat) (t : List Ev) (p : Nat) :
    countReads (Ev.delayMs n :: t) p = countReads t p := rfl

theorem countReads_cons_portD (v : Nat) (t : List Ev) (p : Nat) :
    countReads (Ev.portD v :: t) p = countReads t p := rfl

theorem countReads_cons_ddrD (v : Nat) (t : List Ev) (p : Nat) :
    countReads (Ev.ddrD v :: t) p = countReads t p := rfl

theorem countReads_HVSP_write (d i p : Nat) : countReads (HVSP_write d i) p = 0 := rfl

theorem countReads_send_cmd (m : Mode) (bs2 c p : Nat) : countReads (send_cmd m bs2 c) p = 0 := by
  cases m <;> rfl

theorem countReads_burnSelect (bs2 p : Nat) (sel : Fusesel) :
    countReads (burnSelectWrites bs2 sel) p = 0 := by
  cases sel <;> rfl

theorem hvspRespEq (data instr : Nat) (sdo : Nat → Bool) :
    (HVSP_read data instr sdo).1 =
      (if sdo 0 then 128 else 0) + (if sdo 1 then 64 else 0) + (if sdo 2 then 32 else 0)
      + (if sdo 3 then 16 else 0) + (if sdo 4 then 8 else 0) + (if sdo 5 then 4 else 0)
      + (if sdo 6 then 2 else 0) + (if sdo 7 then 1 else 0) := by
  simp only [HVSP_read, List.range_succ, List.range_zero, List.foldl_append,
    List.foldl_cons, List.foldl_nil, List.nil_append]
  norm_num
  cases h0 : sdo 0 <;> cases h1 : sdo 1 <;> cases h2 : sdo 2 <;> cases h3 : sdo 3 <;>
    cases h4 : sdo 4 <;> cases h5 : sdo 5 <;> cases h6 : sdo 6 <;> cases h7 : sdo 7 <;>
    simp [h0, h1, h2, h3, h4, h5, h6, h7]

/-! ## Claims -/

/-- C1, counterexample.  The claim says the select-line pattern driven
before reading equals the pattern driven before pulsing the write strobe
for every selector, and that for the High selector both lines are High on
both paths.  At the High selector this fails: `fuse_burn` drives BS1 High
and BS2 Low, while `fuse_read` drives both BS1 and BS2 High. -/
theorem C1_counterexample :
    selPattern (burnSelectWrites 9 Fusesel.HFUSE_SEL) 9 = (some true, some false)
    ∧ selPattern (readSelectWrites 9 Fusesel.HFUSE_SEL) 9 = (some true, some true)
    ∧ selPattern (burnSelectWrites 9 Fusesel.HFUSE_SEL) 9 ≠
        selPattern (readSelectWrites 9 Fusesel.HFUSE_SEL) 9 := by
  decide

/-- C1, amended.  For every mode (hence every BS2 pin assignment), the
select-line (BS1, BS2) pattern driven by `fuse_read` equals the one driven
by `fuse_burn` for the Low and Extended selectors; for the High selector
the two paths differ: the burn path drives BS1 High and BS2 Low, the read
path drives both High. -/
theorem C1_select_pattern_amended (m : Mode) :
    selPattern (burnSelectWrites (bs2pin m) Fusesel.LFUSE_SEL) (bs2pin m) =
      selPattern (readSelectWrites (bs2pin m) Fusesel.LFUSE_SEL) (bs2pin m)
    ∧ selPattern (burnSelectWrites (bs2pin m) Fusesel.EFUSE_SEL) (bs2pin m) =
      selPattern (readSelectWrites (bs2pin m) Fusesel.EFUSE_SEL) (bs2pin m)
    ∧ selPattern (burnSelectWrites (bs2pin m) Fusesel.HFUSE_SEL) (bs2pin m) =
        (some true, some false)
    ∧ selPattern (readSelectWrites (bs2pin m) Fusesel.HFUSE_SEL) (bs2pin m) =
        (some true, some true) := by
  cases m <;> decide

/-- C2, counterexample.  The claim says every mode burns the High fuse
before the Low fuse.  In HVSP mode the burning phase writes the Low fuse
first: the fuse-write order is [Low, High], not [High, Low]. -/
theorem C2_counterexample :
    writeFuseOrder (burningPhase Mode.HVSP false 0x62 0xDF 0xF9) =
      [Fusesel.LFUSE_SEL, Fusesel.HFUSE_SEL]
    ∧ writeFuseOrder (burningPhase Mode.HVSP false 0x62 0xDF 0xF9) ≠
        [Fusesel.HFUSE_SEL, Fusesel.LFUSE_SEL] := by
  decide

/-- C2, amended.  In the parallel modes the burning phase invokes the fuse
write for High then Low then (if enabled) Extended; in HVSP (serial) mode
it invokes Low then High then (if enabled) Extended. -/
theorem C2_burn_order_amended (m : Mode) (burnEfuse : Bool) (lf hf ef : Nat) :
    writeFuseOrder (burningPhase m burnEfuse lf hf ef) =
      (if m = Mode.HVSP then [Fusesel.LFUSE_SEL, Fusesel.HFUSE_SEL]
       else [Fusesel.HFUSE_SEL, Fusesel.LFUSE_SEL])
      ++ (if burnEfuse then [Fusesel.EFUSE_SEL] else []) := by
  cases m <;> cases burnEfuse <;> rfl

/-- C3.  For every pair of input bytes (and, for the read primitive, every
behaviour of the response line), one call to `HVSP_read` and one call to
`HVSP_write` each emit exactly 11 serial clock pulses. -/
theorem C3_frame_clock_pulses (data instr : Nat) (sdo : Nat → Bool) :
    clockPulses (HVSP_read data instr sdo).2 = 11
    ∧ clockPulses (HVSP_write data instr) = 11 := by
  exact ⟨rfl, rfl⟩

/-- C4.  The response byte of `HVSP_read` is assembled from exactly eight
samples of the SDO line: bit 7 is the sample taken immediately after the
leading-zero-bit clock pulse (sample 0), and bit `6 - i` is the sample
taken immediately after the clock pulse of data bit `i` for `i = 0..6`
(sample `i + 1`), so bit `j` equals sample `7 - j` for every `j < 8`.
The pulse/sample shape of the trace (pulses as `true`, SDO samples as
`false`) is: leading pulse, sample, seven (pulse, sample) pairs, the last
data-bit pulse with no sample, and two trailing pulses with no samples. -/
theorem C4_response_assembly (data instr : Nat) (sdo : Nat → Bool) :
    (∀ j, j < 8 → Nat.testBit (HVSP_read data instr sdo).1 j = sdo (7 - j))
    ∧ pulsesAndSamples (HVSP_read data instr sdo).2 =
        [true, false, true, false, true, false, true, false, true, false,
         true, false, true, false, true, false, true, true, true] := by
  constructor
  · intro j hj
    rw [hvspRespEq]
    interval_cases j <;>
      cases h0 : sdo 0 <;> cases h1 : sdo 1 <;> cases h2 : sdo 2 <;> cases h3 : sdo 3 <;>
      cases h4 : sdo 4 <;> cases h5 : sdo 5 <;> cases h6 : sdo 6 <;> cases h7 : sdo 7 <;>
      decide
  · rfl

/-- C4, witness: the theorem applied at concrete inputs. -/
theorem C4_witness :
    (0 : Nat) < 8
    ∧ Nat.testBit (HVSP_read 0 0 (fun k => k == 0)).1 0 = (fun k : Nat => k == 0) (7 - 0) :=
  ⟨by decide, (C4_response_assembly 0 0 (fun k => k == 0)).1 0 (by decide)⟩

/-- C5.  The fuse-write busy-waits are unbounded: in the parallel path
(`fuse_burn`, after the WR pulse) and in the serial path (`hvspBurnFuse`,
after the fourth write frame) the operation polls the ready/response line
with no timeout.  If the line never reads High, no amount of fuel makes the
operation terminate; if the line first reads High at poll `n`, the
operation returns after exactly `n + 1` polls (the first poll that read
High is the last). -/
theorem C5_busy_wait_unbounded (m : Mode) (bs2v fuse : Nat) (sel : Fusesel)
    (rdy : Nat → Bool) :
    ((∀ i, rdy i = false) → ∀ fuel,
        fuse_burn m bs2v fuse sel rdy fuel = none ∧ hvspBurnFuse fuse sel rdy fuel = none)
    ∧ (∀ n fuel, rdy n = true → (∀ j, j < n → rdy j = false) → n < fuel →
        (∃ t, fuse_burn m bs2v fuse sel rdy fuel = some t ∧ countReads t RDY = n + 1)
        ∧ (∃ t, hvspBurnFuse fuse sel rdy fuel = some t ∧ countReads t SDO = n + 1)) := by
  constructor
  · intro h fuel
    exact ⟨by simp [fuse_burn, pollTrace_none RDY rdy h fuel 0],
           by simp [hvspBurnFuse, pollTrace_none SDO rdy h fuel 0]⟩
  · intro n fuel h1 h2 h3
    have hp : pollTrace RDY rdy 0 fuel = some (List.replicate (n + 1) (Ev.digitalRead RDY)) := by
      have := pollTrace_first RDY rdy fuel 0 n (Nat.zero_le n) h1
        (fun mm _ hm2 => h2 mm hm2) (by omega)
      simpa using this
    constructor
    · have hfb : fuse_burn m bs2v fuse sel rdy fuel =
          some (send_cmd m bs2v 0x40
            ++ [Ev.digitalWrite XA1 false, Ev.digitalWrite XA0 true, Ev.digitalWrite BS1 false]
            ++ (if m ≠ Mode.TINY2313 then [Ev.digitalWrite bs2v false] else [])
            ++ [Ev.delayMs 1, Ev.portD fuse, Ev.ddrD 255]
            ++ strobe_xtal
            ++ [Ev.portD 0, Ev.ddrD 0]
            ++ burnSelectWrites bs2v sel
            ++ [Ev.delayMs 1, Ev.digitalWrite WR false, Ev.delayMs 1, Ev.digitalWrite WR true]
            ++ List.replicate (n + 1) (Ev.digitalRead RDY)
            ++ [Ev.digitalWrite BS1 false, Ev.digitalWrite bs2v false]) := by
        unfold fuse_burn
        rw [hp]
      refine ⟨_, hfb, ?_⟩
      cases m <;>
        simp [countReads_append, countReads_replicate, countReads_send_cmd,
          countReads_burnSelect, strobe_xtal, countReads_nil, countReads_cons_write,
          countReads_cons_delayMs, countReads_cons_portD, countReads_cons_ddrD]
    · have hhb : hvspBurnFuse fuse sel rdy fuel =
          some (HVSP_write (hvspWriteData sel) (hvspWriteInstr1 sel)
            ++ HVSP_write fuse (hvspWriteInstr2 sel)
            ++ HVSP_write 0 (hvspWriteInstr3 sel)
            ++ HVSP_write 0 (hvspWriteInstr4 sel)
            ++ List.replicate (n + 1) (Ev.digitalRead SDO)) := by
        unfold hvspBurnFuse
        rw [hp]
      refine ⟨_, hhb, ?_⟩
      simp [countReads_append, countReads_replicate, countReads_HVSP_write]

/-- C5, witness: a line that never goes High never lets either operation
return, and a line first High at poll 2 ends the wait at poll 3. -/
theorem C5_witness :
    (fuse_burn Mode.ATMEGA 9 0x62 Fusesel.LFUSE_SEL (fun _ => false) 7 = none
      ∧ hvspBurnFuse 0x62 Fusesel.LFUSE_SEL (fun _ => false) 7 = none)
    ∧ ((∃ t, fuse_burn Mode.ATMEGA 9 0x62 Fusesel.LFUSE_SEL (fun i => i == 2) 7 = some t
          ∧ countReads t RDY = 3)
      ∧ (∃ t, hvspBurnFuse 0x62 Fusesel.LFUSE_SEL (fun i => i == 2) 7 = some t
          ∧ countReads t SDO = 3)) :=
  ⟨(C5_busy_wait_unbounded Mode.ATMEGA 9 0x62 Fusesel.LFUSE_SEL (fun _ => false)).1
      (fun _ => rfl) 7,
   (C5_busy_wait_unbounded Mode.ATMEGA 9 0x62 Fusesel.LFUSE_SEL (fun i => i == 2)).2
      2 7 rfl (by decide) (by decide)⟩


/-- C6, counterexample.  The claim says `fuse_ask` returns
`16 * v(c1) + v(c2)`.  For the stream "xGG" (71 is the character 'G', not
a hex digit, so `v('G') = 71`) that formula gives 1207, but the function
returns a C `byte`: 1207 mod 256 = 183. -/
theorem C6_counterexample :
    fuse_ask [120, 71, 71] = some (183, [])
    ∧ 16 * hex2dec 71 + hex2dec 71 = 1207
    ∧ (183 : Nat) ≠ 1207 := by
  decide

/-- C6, amended.  For every input stream, `fuse_ask` discards all
characters up to and including the first 'x' (code 120), takes exactly the
next two characters c1, c2, and returns `(16 * v(c1) + v(c2)) mod 256`
where `v` is `hex2dec`; the rest of the stream is untouched. -/
theorem C6_fuse_ask_amended (c1 c2 : Nat) (rest : List Nat) :
    ∀ pre, (∀ c ∈ pre, c ≠ 120) →
      fuse_ask (pre ++ 120 :: c1 :: c2 :: rest) =
        some ((16 * hex2dec c1 + hex2dec c2) % 256, rest) := by
  intro pre
  induction pre with
  | nil =>
    intro _
    simp [fuse_ask, dropThroughX]
    ring_nf
  | cons c t ih =>
    intro h
    have hc : c ≠ 120 := h c (by simp)
    have ht := ih (fun x hx => h x (by simp [hx]))
    simp [fuse_ask, dropThroughX, hc] at ht ⊢
    exact ht

/-- C6, witness: the stream "Hx3F" (72 'H', 120 'x', 51 '3', 70 'F')
parses to 0x3F = 63. -/
theorem C6_witness :
    (∀ c ∈ [(72 : Nat)], c ≠ 120)
    ∧ fuse_ask ([72] ++ 120 :: 51 :: 70 :: []) =
        some ((16 * hex2dec 51 + hex2dec 70) % 256, []) :=
  ⟨by decide, C6_fuse_ask_amended 51 70 [] [72] (by decide)⟩

/-- C7, counterexample.  The claim says the verification report consists of
lines "LFUSE: <HH>" / "HFUSE: <HH>".  At fuse value 0x3F the verification
report contains the line "Read LFUSE: 3F" and no line "LFUSE: 3F"; and the
hex rendering is not always two digits: the parsed-byte echo of the input
"x0F" is the single digit "F". -/
theorem C7_counterexample :
    ("Read LFUSE: " ++ printHex 63) ∈ linesOf (verifyReportOut 63 223 false 0) ""
    ∧ ("LFUSE: " ++ printHex 63) ∉ linesOf (verifyReportOut 63 223 false 0) ""
    ∧ fuseAskEcho [120, 48, 70] = some "F" := by
  decide

/-- C7, amended.  The initial-read report consists of the header
"Existing fuse values:" and the lines "LFUSE: <H>", "HFUSE: <H>" and
optionally "EFUSE: <H>"; the verification report consists of the lines
"Read LFUSE: <H>", "Read HFUSE: <H>", optionally "Read EFUSE: <H>",
followed by "Burn complete." and the safe-to-remove notice, where <H> is
the value in uppercase hexadecimal without zero-padding (a single digit
for values below 0x10).  `fuse_ask` echoes the parsed byte in the same
format: "x3F" echoes "3F", "x0F" echoes "F". -/
theorem C7_report_amended (lf hf ef : Nat) (burnEfuse : Bool) :
    linesOf (readReportOut lf hf burnEfuse ef) "" =
      ["", "Existing fuse values:", "LFUSE: " ++ printHex lf, "HFUSE: " ++ printHex hf]
      ++ (if burnEfuse then ["EFUSE: " ++ printHex ef] else []) ++ ["", ""]
    ∧ linesOf (verifyReportOut lf hf burnEfuse ef) "" =
      ["", "Read LFUSE: " ++ printHex lf, "Read HFUSE: " ++ printHex hf]
      ++ (if burnEfuse then ["Read EFUSE: " ++ printHex ef] else [])
      ++ ["Burn complete.", "", "It is now safe to remove the target AVR.", "", ""]
    ∧ fuseAskEcho [120, 51, 70] = some "3F"
    ∧ fuseAskEcho [120, 48, 70] = some "F" := by
  refine ⟨?_, ?_, by decide, by decide⟩ <;>
    cases burnEfuse <;>
    simp [readReportOut, verifyReportOut, linesOf, str_empty_append]

/-- C8, counterexample.  The claim orders the enter sequence as: assert
VCC, wait, assert the 12 V reset enable, then (HVSP only) drive the
data-out line low and release it to input.  In the code the HVSP drive of
SDO low happens before VCC is asserted: in the HVSP enter trace the event
index of the SDO-low write is smaller than that of the VCC-high write. -/
theorem C8_counterexample :
    Ev.digitalWrite SDO false ∈ enterProgSeq Mode.HVSP
    ∧ Ev.digitalWrite VCC true ∈ enterProgSeq Mode.HVSP
    ∧ (enterProgSeq Mode.HVSP).indexOf (Ev.digitalWrite SDO false) <
        (enterProgSeq Mode.HVSP).indexOf (Ev.digitalWrite VCC true) := by
  decide

/-- C8, amended.  The enter sequence is exactly: (HVSP only: drive SDI and
SII low, make SDO an output and drive it low), assert VCC, wait 80 us,
assert the 12 V reset enable (RST low, inverting), (HVSP only: wait about
1 us, release SDO to input), wait 10 us, release OE and WR High, wait
1 ms.  In particular the HVSP data-out low drive precedes the VCC assert;
only the release of SDO to input sits between the reset-enable assert and
the 10 us wait. -/
theorem C8_enter_sequence_amended :
    enterProgSeq Mode.ATMEGA =
      [Ev.digitalWrite VCC true, Ev.delayUs 80, Ev.digitalWrite RST false,
       Ev.delayUs 10, Ev.digitalWrite OE true, Ev.digitalWrite WR true, Ev.delayMs 1]
    ∧ enterProgSeq Mode.TINY2313 =
      [Ev.digitalWrite VCC true, Ev.delayUs 80, Ev.digitalWrite RST false,
       Ev.delayUs 10, Ev.digitalWrite OE true, Ev.digitalWrite WR true, Ev.delayMs 1]
    ∧ enterProgSeq Mode.HVSP =
      [Ev.digitalWrite SDI false, Ev.digitalWrite SII false,
       Ev.pinMode SDO true, Ev.digitalWrite SDO false,
       Ev.digitalWrite VCC true, Ev.delayUs 80, Ev.digitalWrite RST false,
       Ev.delayUs 1, Ev.pinMode SDO false,
       Ev.delayUs 10, Ev.digitalWrite OE true, Ev.digitalWrite WR true, Ev.delayMs 1] := by
  decide

/-- C9.  Whenever the debounced button wait terminates, it does so at a
confirming read that saw the button pressed (Low), whose immediately
preceding read (the trigger, 100 ms earlier — the trace ends with read,
100 ms delay, read) also saw it pressed.  Hence a press observed pressed
but released at the confirming sample never ends the wait. -/
theorem C9_debounce (btn : Nat → Bool) :
    ∀ fuel start j t, buttonWait btn start fuel = some (j, t) →
      1 ≤ j ∧ btn (j - 1) = false ∧ btn j = false ∧
      ∃ pre, t = pre ++ [Ev.digitalRead BUTTON, Ev.delayMs 100, Ev.digitalRead BUTTON] := by
  intro fuel
  induction fuel with
  | zero => intro start j t h; exact absurd h (by simp [buttonWait])
  | succ k ih =>
    intro start j t h
    by_cases h1 : btn start
    · rw [buttonWait, if_pos h1] at h
      match hrec : buttonWait btn (start + 1) k with
      | none => rw [hrec] at h; exact absurd h (by simp)
      | some (jq, tq) =>
        rw [hrec] at h
        simp at h
        obtain ⟨hj, ht⟩ := h
        obtain ⟨a, b, c, pre, hpre⟩ := ih (start + 1) jq tq hrec
        subst hj
        refine ⟨a, b, c, Ev.digitalRead BUTTON :: pre, ?_⟩
        simp [← ht, hpre]
    · by_cases h2 : btn (start + 1)
      · rw [buttonWait, if_neg h1, if_pos h2] at h
        match hrec : buttonWait btn (start + 2) k with
        | none => rw [hrec] at h; exact absurd h (by simp)
        | some (jq, tq) =>
          rw [hrec] at h
          simp at h
          obtain ⟨hj, ht⟩ := h
          obtain ⟨a, b, c, pre, hpre⟩ := ih (start + 2) jq tq hrec
          subst hj
          refine ⟨a, b, c,
            Ev.digitalRead BUTTON :: Ev.delayMs 100 :: Ev.digitalRead BUTTON :: pre, ?_⟩
          simp [← ht, hpre]
      · rw [buttonWait, if_neg h1, if_neg h2] at h
        simp at h
        obtain ⟨hj, ht⟩ := h
        subst hj
        exact ⟨by omega, by simpa using h1, by simpa using h2, [], by simp [← ht]⟩

/-- C9, witness: with the button released at read 1 only (a bounced press
at reads 0/1, then a held press), the wait ends at confirming read 3, both
read 2 and read 3 pressed; the bounced press did not end it. -/
theorem C9_witness :
    1 ≤ 3 ∧ (fun k : Nat => k == 1) (3 - 1) = false ∧ (fun k : Nat => k == 1) 3 = false ∧
    ∃ pre, ([Ev.digitalRead BUTTON, Ev.delayMs 100, Ev.digitalRead BUTTON,
             Ev.digitalRead BUTTON, Ev.delayMs 100, Ev.digitalRead BUTTON] : List Ev) =
      pre ++ [Ev.digitalRead BUTTON, Ev.delayMs 100, Ev.digitalRead BUTTON] :=
  C9_debounce (fun k => k == 1) 10 0 3
    [Ev.digitalRead BUTTON, Ev.delayMs 100, Ev.digitalRead BUTTON,
     Ev.digitalRead BUTTON, Ev.delayMs 100, Ev.digitalRead BUTTON] (by decide)

/-- C10.  The guarded BS2-low write of `send_cmd` is present exactly when
the mode is not TINY2313 (in TINY2313 mode, where the BS2 role is aliased
onto the XA1 pin, `send_cmd` performs no write to that pin other than the
initial XA1-high), and in every mode the XA1 line set High at the start of
`send_cmd` is still High after the part of `send_cmd` up to and including
the command-latching XTAL1 strobe. -/
theorem C10_send_cmd_bs2 (m : Mode) (cmd : Nat) (s : Nat → Bool) :
    ((Ev.digitalWrite (bs2pin m) false ∈ sendCmdPre m (bs2pin m) cmd) ↔ m ≠ Mode.TINY2313)
    ∧ applyWrites s (sendCmdPre m (bs2pin m) cmd ++ strobe_xtal) XA1 = true := by
  cases m <;>
    exact ⟨by simp [sendCmdPre, bs2pin],
           by simp [applyWrites, sendCmdPre, bs2pin, strobe_xtal]⟩

end ATRescue
